import Mathlib

/-!
Verification of the RedwoodJS Unkey middleware core: the decision logic of
`createApiKeyMiddleware` and `createRatelimitMiddleware`.

The repository ships the test suites of both middleware factories; the
factories themselves live outside the packaged sources, so their decision
logic is modelled here from the specification (each such definition carries a
doc comment starting with `Modelled from the spec:`).  The deterministic
service mocks used as witnesses are translated from the test file
(`src/unnamed/part_000`).
-/

/-- Inbound HTTP request abstraction: a case-insensitive header mapping plus
optional connecting-IP information.  Immutable during middleware execution. -/
structure MwRequest where
  headers : List (String × String) := []
  ip : Option String := none
deriving DecidableEq, Repr

/-- Outbound response value: status code and body.  Returning one
short-circuits the middleware pipeline. -/
structure MwResponse where
  status : Nat
  body : String
deriving DecidableEq, Repr

/-- Middleware outcome: `pass` lets the framework proceed to the next
handler; `respond r` short-circuits with response `r`. -/
inductive MwResult where
  | pass : MwResult
  | respond : MwResponse → MwResult
deriving DecidableEq, Repr

/-- Status observed by an end-to-end handler: pass-through is observed as a
downstream 200, a short-circuit as the response's own status. -/
def observedStatus : MwResult → Nat
  | MwResult.pass => 200
  | MwResult.respond r => r.status

/-- Case-insensitive string comparison, used for header names. -/
def lowerEq (a b : String) : Bool :=
  a.data.map Char.toLower == b.data.map Char.toLower

/-- Case-insensitive header lookup on a request. -/
def getHeader (req : MwRequest) (nm : String) : Option String :=
  (req.headers.find? (fun p => lowerEq p.fst nm)).map Prod.snd

/-- Error branch of the remote key-verification service response. -/
structure ServiceError where
  code : String
  docs : String
  message : String
  requestId : String
deriving DecidableEq, Repr

/-- Result branch of the remote key-verification service response. -/
structure VerifyResult where
  valid : Bool
  code : String
deriving DecidableEq, Repr

/-- Discriminated outcome of the remote key service: either the `error`
branch or the `result` branch is populated. -/
structure VerifyResponse where
  error : Option ServiceError := none
  result : Option VerifyResult := none
deriving DecidableEq, Repr

/-- A key-verification service: takes the extracted key and the configured
`apiId` and produces a `VerifyResponse`. -/
def VerifyService : Type := String → Option String → VerifyResponse

/-- Modelled from the spec: extraction of the bearer token from the value of
the `authorization` header.  Absent header, a value not matching the
`Bearer <token>` scheme, or an empty token after the scheme all yield
`none`. -/
def parseBearer (auth : Option String) : Option String :=
  match auth with
  | none => none
  | some a =>
    if a.data.take 7 = "Bearer ".data then
      let tok := String.mk (a.data.drop 7)
      if tok = "" then none else some tok
    else none

/-- Modelled from the spec: interpretation of the verification-service
response.  An `error` branch yields 500; `valid = true` yields pass-through;
`valid = false` yields 401; absence of both branches is treated defensively
as an error and yields 500. -/
def interpretVerify (resp : VerifyResponse) : MwResult :=
  match resp.error with
  | some _ => MwResult.respond { status := 500, body := "Internal server error" }
  | none =>
    match resp.result with
    | some r =>
      if r.valid then MwResult.pass
      else MwResult.respond { status := 401, body := "Unauthorized" }
    | none => MwResult.respond { status := 500, body := "Internal server error" }

/-- Instrumentation event of the api-key handler: a call to the remote
verification service with the given key and apiId. -/
inductive ApiEvent where
  | verifyCall : String → Option String → ApiEvent
deriving DecidableEq, Repr

/-- Modelled from the spec: the handler produced by
`createApiKeyMiddleware`.  Missing from the packaged sources (only its test
suite is present).  The handler extracts the bearer token; a missing or
malformed credential yields 401 with no service call; otherwise the service
is called once and its response interpreted.  The returned trace records
every service call. -/
def apiKeyHandler (verify : VerifyService) (apiId : Option String)
    (req : MwRequest) : MwResult × List ApiEvent :=
  match parseBearer (getHeader req "authorization") with
  | none => (MwResult.respond { status := 401, body := "Unauthorized" }, [])
  | some tok => (interpretVerify (verify tok apiId), [ApiEvent.verifyCall tok apiId])

/-- The deterministic key-verification mock of the test suite: any apiId
other than `defaultApiId` yields the error branch; the known valid key
yields `valid = true`; any other key yields `valid = false`. -/
def mockVerify : VerifyService := fun key apiId =>
  if apiId ≠ some "defaultApiId" then
    { error := some { code := "INTERNAL_SERVER_ERROR", docs := ""
                    , message := "Internal server error", requestId := "123" } }
  else if key = "valid-key" then
    { error := none, result := some { valid := true, code := "VALID" } }
  else
    { error := none, result := some { valid := false, code := "FORBIDDEN" } }

/-- Response of the remote rate-limiting service's `limit` operation. -/
structure RatelimitResponse where
  success : Bool
  limit : Nat
  remaining : Nat
  reset : Nat
deriving DecidableEq, Repr

/-- A rate limiter client: `limit` takes the identifier and either resolves
to a `RatelimitResponse` or throws (modelled as `Except.error` carrying the
error message). -/
def Limiter : Type := String → Except String RatelimitResponse

/-- Optional structured logger accepting level-tagged log calls; only its
presence or absence matters to the decision logic. -/
structure Logger where
  level : String
deriving DecidableEq, Repr

/-- Configuration of `createRatelimitMiddleware`: optional identifier
derivation (which may throw), optional exceeded/error response hooks, and an
optional logger.  The rate-limiter client built from the nested service
config is passed to the handler as a `Limiter`. -/
structure RatelimitMiddlewareConfig where
  getIdentifier : Option (MwRequest → Except String String) := none
  onExceeded : Option (MwRequest → MwResponse) := none
  onError : Option (MwRequest → MwResponse) := none
  logger : Option Logger := none

/-- Instrumentation events of the ratelimit handler: calls to the limiter,
entries into the error and exceeded paths, and emitted log lines. -/
inductive RlEvent where
  | limiterCall : String → RlEvent
  | errorPath : RlEvent
  | exceededPath : RlEvent
  | logged : String → String → RlEvent
deriving DecidableEq, Repr

/-- Whether an event is a limiter call. -/
def RlEvent.isLimiterCall : RlEvent → Bool
  | RlEvent.limiterCall _ => true
  | _ => false

/-- Whether an event is an entry into the error path. -/
def RlEvent.isErrorPath : RlEvent → Bool
  | RlEvent.errorPath => true
  | _ => false

/-- Modelled from the spec: the default identifier strategy used when
`getIdentifier` is absent — the connecting IP when the request carries one,
otherwise the fixed fallback `192.168.1.1` pinned by the test suite. -/
def defaultIdentifier (req : MwRequest) : String :=
  req.ip.getD "192.168.1.1"

/-- Modelled from the spec: identifier resolution — the caller-supplied
`getIdentifier` (which may throw) when present, otherwise the default
strategy. -/
def resolveIdentifier (cfg : RatelimitMiddlewareConfig) (req : MwRequest) :
    Except String String :=
  match cfg.getIdentifier with
  | some g => g req
  | none => Except.ok (defaultIdentifier req)

/-- Modelled from the spec: the error-path response — the `onError` hook
applied to the original request when present, otherwise the default 500
response with body "Internal server error". -/
def errorResponse (cfg : RatelimitMiddlewareConfig) (req : MwRequest) : MwResponse :=
  match cfg.onError with
  | some h => h req
  | none => { status := 500, body := "Internal server error" }

/-- Log events emitted at a decision point: one entry when a logger is
configured, none otherwise. -/
def logIf (cfg : RatelimitMiddlewareConfig) (level msg : String) : List RlEvent :=
  match cfg.logger with
  | some _ => [RlEvent.logged level msg]
  | none => []

/-- Modelled from the spec: the handler produced by
`createRatelimitMiddleware`.  Missing from the packaged sources (only its
test suite is present).  The handler resolves the identifier (jumping to the
error path if that throws, without calling the limiter), calls the limiter
once, passes through on success, and on failure returns the `onExceeded`
hook result or the default 429.  Any throw from the limiter also takes the
error path.  The trace records limiter calls, path entries and log lines. -/
def ratelimitHandler (cfg : RatelimitMiddlewareConfig) (limiter : Limiter)
    (req : MwRequest) : MwResult × List RlEvent :=
  match resolveIdentifier cfg req with
  | Except.error e =>
    (MwResult.respond (errorResponse cfg req),
      [RlEvent.errorPath] ++ logIf cfg "error" e)
  | Except.ok ident =>
    match limiter ident with
    | Except.error e =>
      (MwResult.respond (errorResponse cfg req),
        [RlEvent.limiterCall ident, RlEvent.errorPath] ++ logIf cfg "error" e)
    | Except.ok r =>
      if r.success then
        (MwResult.pass, [RlEvent.limiterCall ident])
      else
        match cfg.onExceeded with
        | some h =>
          (MwResult.respond (h req),
            [RlEvent.limiterCall ident, RlEvent.exceededPath]
              ++ logIf cfg "warn" "Rate limit exceeded")
        | none =>
          (MwResult.respond { status := 429, body := "Rate limit exceeded" },
            [RlEvent.limiterCall ident, RlEvent.exceededPath]
              ++ logIf cfg "warn" "Rate limit exceeded")

/-- The deterministic rate-limiter mock of the test suite, built from a
service config with the given namespace: the limit check succeeds exactly
when the identifier equals the namespace. -/
def mockLimiter (ns : String) : Limiter := fun identifier =>
  Except.ok { success := identifier == ns, limit := 0, remaining := 0, reset := 0 }

/-- A verification service returning a response with neither branch
populated, used to witness the defensive 500 path. -/
def nullVerify : VerifyService := fun _ _ => {}

/-- Claim C1: for every request whose authorization header is absent or does
not match the `Bearer <token>` scheme (or is empty after the scheme), the
api-key handler returns a 401 response and the remote verification service
is never invoked (the call trace is empty). -/
theorem apiKey_malformed_auth_401_no_call (verify : VerifyService)
    (apiId : Option String) (req : MwRequest)
    (h : parseBearer (getHeader req "authorization") = none) :
    (apiKeyHandler verify apiId req).1
        = MwResult.respond { status := 401, body := "Unauthorized" }
      ∧ (apiKeyHandler verify apiId req).2 = [] := by
  simp [apiKeyHandler, h]

/-- Witness for C1: a request with no headers at all. -/
theorem apiKey_malformed_auth_401_no_call_witness :
    (apiKeyHandler mockVerify (some "defaultApiId") {}).1
        = MwResult.respond { status := 401, body := "Unauthorized" }
      ∧ (apiKeyHandler mockVerify (some "defaultApiId") {}).2 = [] :=
  apiKey_malformed_auth_401_no_call mockVerify (some "defaultApiId") {} (by decide)

/-- Claim C2: whenever the service answers with the `error` branch for the
extracted token and configured apiId (as it does for an unrecognized apiId),
the api-key handler returns 500 — never 401 — for every key, including an
otherwise-valid one. -/
theorem apiKey_service_error_500 (verify : VerifyService) (apiId : Option String)
    (req : MwRequest) (tok : String) (e : ServiceError)
    (hp : parseBearer (getHeader req "authorization") = some tok)
    (he : (verify tok apiId).error = some e) :
    (apiKeyHandler verify apiId req).1
        = MwResult.respond { status := 500, body := "Internal server error" }
      ∧ observedStatus (apiKeyHandler verify apiId req).1 ≠ 401 := by
  simp [apiKeyHandler, hp, interpretVerify, he, observedStatus]

/-- Witness for C2: the mock service with the unrecognized apiId `badid` and
the otherwise-valid key, as in the test `unsupported appId is a 500`. -/
theorem apiKey_service_error_500_witness :
    (apiKeyHandler mockVerify (some "badid")
        { headers := [("authorization", "Bearer valid-key")] }).1
      = MwResult.respond { status := 500, body := "Internal server error" } :=
  (apiKey_service_error_500 mockVerify (some "badid")
    { headers := [("authorization", "Bearer valid-key")] } "valid-key"
    { code := "INTERNAL_SERVER_ERROR", docs := ""
    , message := "Internal server error", requestId := "123" }
    (by decide) (by decide)).1

/-- Claim C3: whenever the service answers `valid = true` for the extracted
token and configured apiId, the api-key handler passes the request through,
observed downstream as status 200. -/
theorem apiKey_valid_pass (verify : VerifyService) (apiId : Option String)
    (req : MwRequest) (tok : String) (r : VerifyResult)
    (hp : parseBearer (getHeader req "authorization") = some tok)
    (he : (verify tok apiId).error = none)
    (hr : (verify tok apiId).result = some r)
    (hv : r.valid = true) :
    (apiKeyHandler verify apiId req).1 = MwResult.pass
      ∧ observedStatus (apiKeyHandler verify apiId req).1 = 200 := by
  simp [apiKeyHandler, hp, interpretVerify, he, hr, hv, observedStatus]

/-- Witness for C3: the mock service, the valid key and the default apiId,
as in the test `key is valid is a 200`. -/
theorem apiKey_valid_pass_witness :
    (apiKeyHandler mockVerify (some "defaultApiId")
        { headers := [("authorization", "Bearer valid-key")] }).1 = MwResult.pass :=
  (apiKey_valid_pass mockVerify (some "defaultApiId")
    { headers := [("authorization", "Bearer valid-key")] } "valid-key"
    { valid := true, code := "VALID" }
    (by decide) (by decide) (by decide) rfl).1

/-- Claim C4: whenever the service answers `valid = false` for the extracted
token under a recognized apiId, the api-key handler returns a 401
response. -/
theorem apiKey_invalid_401 (verify : VerifyService) (apiId : Option String)
    (req : MwRequest) (tok : String) (r : VerifyResult)
    (hp : parseBearer (getHeader req "authorization") = some tok)
    (he : (verify tok apiId).error = none)
    (hr : (verify tok apiId).result = some r)
    (hv : r.valid = false) :
    (apiKeyHandler verify apiId req).1
      = MwResult.respond { status := 401, body := "Unauthorized" } := by
  simp [apiKeyHandler, hp, interpretVerify, he, hr, hv]

/-- Witness for C4: the mock service and the invalid key, as in the test
`key is invalid is a 401`. -/
theorem apiKey_invalid_401_witness :
    (apiKeyHandler mockVerify (some "defaultApiId")
        { headers := [("authorization", "Bearer invalid-key")] }).1
      = MwResult.respond { status := 401, body := "Unauthorized" } :=
  apiKey_invalid_401 mockVerify (some "defaultApiId")
    { headers := [("authorization", "Bearer invalid-key")] } "invalid-key"
    { valid := false, code := "FORBIDDEN" }
    (by decide) (by decide) (by decide) rfl

/-- Claim C9: a service response with neither the `error` branch nor the
`result` branch populated is treated as an error: the api-key handler
returns 500, does not pass the request through, and does not answer 401. -/
theorem apiKey_neither_branch_500 (verify : VerifyService) (apiId : Option String)
    (req : MwRequest) (tok : String)
    (hp : parseBearer (getHeader req "authorization") = some tok)
    (he : (verify tok apiId).error = none)
    (hr : (verify tok apiId).result = none) :
    (apiKeyHandler verify apiId req).1
        = MwResult.respond { status := 500, body := "Internal server error" }
      ∧ (apiKeyHandler verify apiId req).1 ≠ MwResult.pass
      ∧ observedStatus (apiKeyHandler verify apiId req).1 ≠ 401 := by
  simp [apiKeyHandler, hp, interpretVerify, he, hr, observedStatus]

/-- Witness for C9: a service that populates neither branch. -/
theorem apiKey_neither_branch_500_witness :
    (apiKeyHandler nullVerify (some "defaultApiId")
        { headers := [("authorization", "Bearer valid-key")] }).1
      = MwResult.respond { status := 500, body := "Internal server error" } :=
  (apiKey_neither_branch_500 nullVerify (some "defaultApiId")
    { headers := [("authorization", "Bearer valid-key")] } "valid-key"
    (by decide) rfl rfl).1

/-- Claim C5: when the identifier resolves and the limiter resolves, a
successful limit check yields pass-through (observed downstream as 200),
and a failed check with no `onExceeded` hook yields the default 429
response. -/
theorem ratelimit_success_pass_failure_429 (cfg : RatelimitMiddlewareConfig)
    (lim : Limiter) (req : MwRequest) (ident : String) (r : RatelimitResponse)
    (hi : resolveIdentifier cfg req = Except.ok ident)
    (hl : lim ident = Except.ok r) :
    (r.success = true →
        (ratelimitHandler cfg lim req).1 = MwResult.pass
          ∧ observedStatus (ratelimitHandler cfg lim req).1 = 200)
      ∧ (r.success = false → cfg.onExceeded = none →
          (ratelimitHandler cfg lim req).1
            = MwResult.respond { status := 429, body := "Rate limit exceeded" }) := by
  constructor
  · intro hs
    simp [ratelimitHandler, hi, hl, hs, observedStatus]
  · intro hs hx
    simp [ratelimitHandler, hi, hl, hs, hx]

/-- Witness for C5: the mock limiter keyed to a namespace that does not
match the derived identifier, as in the test `should rate limit`. -/
theorem ratelimit_success_pass_failure_429_witness :
    (ratelimitHandler {} (mockLimiter "my-app") {}).1
      = MwResult.respond { status := 429, body := "Rate limit exceeded" } :=
  (ratelimit_success_pass_failure_429 {} (mockLimiter "my-app") {} "192.168.1.1"
    { success := false, limit := 0, remaining := 0, reset := 0 }
    rfl rfl).2 rfl rfl

/-- Claim C6: when the configured `getIdentifier` throws, the limiter is
never called (no limiter-call event), the error path executes exactly once
(exactly one error-path event), and the result is the `onError` hook's
response when the hook is present, otherwise the default 500 response with
body "Internal server error". -/
theorem ratelimit_identifier_throws_error_path (cfg : RatelimitMiddlewareConfig)
    (lim : Limiter) (req : MwRequest) (g : MwRequest → Except String String)
    (msg : String)
    (hg : cfg.getIdentifier = some g)
    (he : g req = Except.error msg) :
    (ratelimitHandler cfg lim req).2.countP RlEvent.isLimiterCall = 0
      ∧ (ratelimitHandler cfg lim req).2.countP RlEvent.isErrorPath = 1
      ∧ (∀ h, cfg.onError = some h →
          (ratelimitHandler cfg lim req).1 = MwResult.respond (h req))
      ∧ (cfg.onError = none →
          (ratelimitHandler cfg lim req).1
            = MwResult.respond { status := 500, body := "Internal server error" }) := by
  have hres : resolveIdentifier cfg req = Except.error msg := by
    simp [resolveIdentifier, hg, he]
  refine ⟨?_, ?_, ?_, ?_⟩
  · cases hlog : cfg.logger <;>
      simp [ratelimitHandler, hres, logIf, hlog, List.countP, List.countP.go,
        RlEvent.isLimiterCall]
  · cases hlog : cfg.logger <;>
      simp [ratelimitHandler, hres, logIf, hlog, List.countP, List.countP.go,
        RlEvent.isErrorPath]
  · intro h hh
    simp [ratelimitHandler, hres, errorResponse, hh]
  · intro hh
    simp [ratelimitHandler, hres, errorResponse, hh]

/-- Witness for C6: a `getIdentifier` that throws and no `onError` hook, as
in the test `should error`. -/
theorem ratelimit_identifier_throws_error_path_witness :
    (ratelimitHandler { getIdentifier := some (fun _ => Except.error "Error simulated by test") }
        (mockLimiter "exceeded") {}).1
      = MwResult.respond { status := 500, body := "Internal server error" } :=
  (ratelimit_identifier_throws_error_path
    { getIdentifier := some (fun _ => Except.error "Error simulated by test") }
    (mockLimiter "exceeded") {} (fun _ => Except.error "Error simulated by test")
    "Error simulated by test" rfl rfl).2.2.2 rfl

/-- Claim C7: a configured `onExceeded` hook (on a failed limit check) or
`onError` hook (on a throw from identifier resolution or from the limiter)
fully determines the returned response: the handler returns exactly the
hook's result, applied to the original request, overriding the 429/500
defaults. -/
theorem ratelimit_hooks_determine_response :
    (∀ (cfg : RatelimitMiddlewareConfig) (lim : Limiter) (req : MwRequest)
        (ident : String) (r : RatelimitResponse) (h : MwRequest → MwResponse),
      cfg.onExceeded = some h →
      resolveIdentifier cfg req = Except.ok ident →
      lim ident = Except.ok r →
      r.success = false →
      (ratelimitHandler cfg lim req).1 = MwResult.respond (h req))
    ∧ (∀ (cfg : RatelimitMiddlewareConfig) (lim : Limiter) (req : MwRequest)
        (h : MwRequest → MwResponse),
      cfg.onError = some h →
      ((∃ msg, resolveIdentifier cfg req = Except.error msg)
        ∨ (∃ ident msg, resolveIdentifier cfg req = Except.ok ident
            ∧ lim ident = Except.error msg)) →
      (ratelimitHandler cfg lim req).1 = MwResult.respond (h req)) := by
  constructor
  · intro cfg lim req ident r h hh hi hl hs
    simp [ratelimitHandler, hi, hl, hs, hh]
  · intro cfg lim req h hh hcase
    rcases hcase with ⟨msg, hi⟩ | ⟨ident, msg, hi, hl⟩
    · simp [ratelimitHandler, hi, errorResponse, hh]
    · simp [ratelimitHandler, hi, hl, errorResponse, hh]

/-- Witness for C7: the custom exceeded hook of the test `should be limited
with a custom rate limit exceeded message function`, and the custom error
hook of the test `should error with custom message and status`. -/
theorem ratelimit_hooks_determine_response_witness :
    (ratelimitHandler
        { onExceeded := some (fun _ =>
            { status := 429, body := "Custom Rate limit exceeded message" }) }
        (mockLimiter "exceeded") {}).1
      = MwResult.respond { status := 429, body := "Custom Rate limit exceeded message" }
    ∧ (ratelimitHandler
        { getIdentifier := some (fun _ => Except.error "Error simulated by test")
        , onError := some (fun _ => { status := 501, body := "Not implemented" }) }
        (mockLimiter "exceeded") {}).1
      = MwResult.respond { status := 501, body := "Not implemented" } :=
  ⟨ratelimit_hooks_determine_response.1
      { onExceeded := some (fun _ =>
          { status := 429, body := "Custom Rate limit exceeded message" }) }
      (mockLimiter "exceeded") {} "192.168.1.1"
      { success := false, limit := 0, remaining := 0, reset := 0 }
      (fun _ => { status := 429, body := "Custom Rate limit exceeded message" })
      rfl rfl rfl rfl,
   ratelimit_hooks_determine_response.2
      { getIdentifier := some (fun _ => Except.error "Error simulated by test")
      , onError := some (fun _ => { status := 501, body := "Not implemented" }) }
      (mockLimiter "exceeded") {}
      (fun _ => { status := 501, body := "Not implemented" })
      rfl (Or.inl ⟨"Error simulated by test", rfl⟩)⟩

/-- Claim C8: the response component of the ratelimit handler is identical
whether a logger is configured or not — logging never alters the returned
status or body, on every request, config and limiter. -/
theorem ratelimit_logger_no_response_effect (cfg : RatelimitMiddlewareConfig)
    (lgr : Option Logger) (lim : Limiter) (req : MwRequest) :
    (ratelimitHandler { cfg with logger := lgr } lim req).1
      = (ratelimitHandler { cfg with logger := none } lim req).1 := by
  obtain ⟨gi, oex, oer, lg⟩ := cfg
  cases gi with
  | none =>
    cases hl : lim (defaultIdentifier req) with
    | error e =>
      simp [ratelimitHandler, resolveIdentifier, hl, errorResponse]
    | ok r =>
      cases hs : r.success <;> cases oex <;>
        simp [ratelimitHandler, resolveIdentifier, hl, hs]
  | some g =>
    cases hg : g req with
    | error e =>
      simp [ratelimitHandler, resolveIdentifier, hg, errorResponse]
    | ok ident =>
      cases hl : lim ident with
      | error e =>
        simp [ratelimitHandler, resolveIdentifier, hg, hl, errorResponse]
      | ok r =>
        cases hs : r.success <;> cases oex <;>
          simp [ratelimitHandler, resolveIdentifier, hg, hl, hs]

/-- Claim C10: with `getIdentifier` absent and a request carrying no
connecting-IP information, the default identifier is the fixed string
`192.168.1.1`: the test-suite limiter (success exactly when the identifier
equals its namespace) passes the request through when its namespace is
`192.168.1.1` and yields the default 429 for any other namespace. -/
theorem ratelimit_default_identifier_fixed (ns : String)
    (cfg : RatelimitMiddlewareConfig) (req : MwRequest)
    (hg : cfg.getIdentifier = none)
    (hx : cfg.onExceeded = none)
    (hip : req.ip = none) :
    (ns = "192.168.1.1" →
        (ratelimitHandler cfg (mockLimiter ns) req).1 = MwResult.pass)
      ∧ (ns ≠ "192.168.1.1" →
          (ratelimitHandler cfg (mockLimiter ns) req).1
            = MwResult.respond { status := 429, body := "Rate limit exceeded" }) := by
  have hid : resolveIdentifier cfg req = Except.ok "192.168.1.1" := by
    simp [resolveIdentifier, hg, defaultIdentifier, hip]
  constructor
  · intro hns
    subst hns
    simp [ratelimitHandler, hid, mockLimiter]
  · intro hns
    have hb : (("192.168.1.1" : String) == ns) = false :=
      beq_eq_false_iff_ne.mpr (fun hcontra => hns hcontra.symm)
    simp [ratelimitHandler, hid, mockLimiter, hb, hx]

/-- Witness for C10: the namespaces of the tests `should not rate limit`
(`192.168.1.1`, pass-through) and `should rate limit` (`my-app`, 429). -/
theorem ratelimit_default_identifier_fixed_witness :
    (ratelimitHandler {} (mockLimiter "192.168.1.1") {}).1 = MwResult.pass
      ∧ (ratelimitHandler {} (mockLimiter "my-app") {}).1
          = MwResult.respond { status := 429, body := "Rate limit exceeded" } :=
  ⟨(ratelimit_default_identifier_fixed "192.168.1.1" {} {} rfl rfl rfl).1 rfl,
   (ratelimit_default_identifier_fixed "my-app" {} {} rfl rfl rfl).2 (by decide)⟩
